import Mathlib

/-!
Verification of the flag-descriptor module of the dyna_flag crate
(`src/lib.rs`).  The development shallowly embeds the `flag` module:
the `Flag` struct, its `Debug` rendering (including the
`match_value!` downcast chain), `FlagError` and its `Debug` rendering
(the `debug_match!` chain with its `Unknown value` fallback), and the
operations `set_value` and `is_in`.
-/

namespace DynaFlag

/-- Model of the concrete (erased) type and content sitting inside a
`Box<dyn Any>` value slot.  Rust `TypeId`s are distinct for a type `T`
and the reference type `&T`, so the model distinguishes reference
payloads (`refStr` models `&'static str`, `refBool` models
`&'static bool`, `refI32` models `&'static i32`, `refF32` models
`&'static f32`) from by-value payloads (`valStr` models an owned
`String`, `valBool` models `bool`, `valI32` models `i32`, `valF32`
models `f32`).  `refDynAny v` models a `&'static dyn Any` reference
(the concrete type stored by `Flag::set_value`) whose referent erases
`v`; `otherTy` models any other concrete type.  A 32-bit integer is
carried as its mathematical value (no arithmetic is ever performed on
it); an `f32` is carried as the text its `Display` implementation
produces, since only that text is ever observed. -/
inductive AnyVal where
  | refStr (s : String)
  | refBool (b : Bool)
  | refI32 (n : Int)
  | refF32 (disp : String)
  | valStr (s : String)
  | valBool (b : Bool)
  | valI32 (n : Int)
  | valF32 (disp : String)
  | refDynAny (v : AnyVal)
  | otherTy
deriving DecidableEq

/-- `value.downcast_ref::<&'static str>()`: succeeds exactly when the
erased concrete type is `&'static str`. -/
def downcastStr : AnyVal → Option String
  | .refStr s => some s
  | _ => none

/-- `value.downcast_ref::<&'static bool>()`: succeeds exactly when the
erased concrete type is `&'static bool`. -/
def downcastBool : AnyVal → Option Bool
  | .refBool b => some b
  | _ => none

/-- `value.downcast_ref::<&'static i32>()`: succeeds exactly when the
erased concrete type is `&'static i32`. -/
def downcastI32 : AnyVal → Option Int
  | .refI32 n => some n
  | _ => none

/-- `value.downcast_ref::<&'static f32>()`: succeeds exactly when the
erased concrete type is `&'static f32`. -/
def downcastF32 : AnyVal → Option String
  | .refF32 d => some d
  | _ => none

/-- Rust `Display` for `bool`. -/
def displayBool (b : Bool) : String :=
  if b then "true" else "false"

/-- The `match_value!` macro as expanded inside `Flag`s `Debug`
implementation: a chain of `if let Some(v) = value.downcast_ref::<T>()`
tests, in the fixed order `&'static str`, `&'static bool`,
`&'static i32`, `&'static f32`; the first successful downcast writes
the clause with the value in backticks, and when every test fails the
final `else` branch writes the unknown-type clause. -/
def matchValue (value : AnyVal) : String :=
  match downcastStr value with
  | some v => " | Default: `" ++ v ++ "`"
  | none =>
    match downcastBool value with
    | some v => " | Default: `" ++ displayBool v ++ "`"
    | none =>
      match downcastI32 value with
      | some v => " | Default: `" ++ toString v ++ "`"
      | none =>
        match downcastF32 value with
        | some v => " | Default: `" ++ v ++ "`"
        | none => " | Default: [unknown type]"

/-- The `FlagError` enum. -/
inductive FlagError where
  | NoValue
  | InvalidFlag
  | MissingArgument
deriving DecidableEq

/-- The `debug_match!` macro: a `match` over the scrutinee where each
`rule` arm is represented by the pair of the Boolean outcome of its
pattern test and the string it would write; the first arm whose test
succeeds wins, and the catch-all `_` arm writes `Unknown value`. -/
def debugMatch (rules : List (Bool × String)) : String :=
  match rules.find? (fun r => r.1) with
  | some r => r.2
  | none => "Unknown value"

/-- `Debug` for `FlagError`: `debug_match!` applied to the three rules
`NoValue`, `InvalidFlag`, `MissingArgument`. -/
def FlagError.fmt (self : FlagError) : String :=
  debugMatch
    [(self == FlagError.NoValue, "No value provided"),
     (self == FlagError.InvalidFlag, "Invalid flag"),
     (self == FlagError.MissingArgument, "Missing Argument")]

/-- The `Flag` struct.  Borrowed `&str` data is modelled by `String`
and the `&[&str]` slice by `List String`; the `Option<Box<dyn Any>>`
slot by `Option AnyVal`. -/
structure Flag where
  name : String
  args : List String
  desc : String
  notes : Option String
  value : Option AnyVal
deriving DecidableEq

/-- `Debug` for `Flag`: the sequence of `write!` calls of `fmt`,
accumulated left to right into the output string (the `for` loop over
`args` is a left fold, matching the loop that writes each argument
followed by a space). -/
def Flag.fmt (self : Flag) : String :=
  let s := self.name ++ "\n\t"
  let s := self.args.foldl (fun acc arg => acc ++ arg ++ " ") s
  let s := s ++ "| " ++ self.desc
  let s :=
    match self.notes with
    | some notes => s ++ " | " ++ notes
    | none => s
  match self.value with
  | some value => s ++ matchValue value
  | none => s

/-- `Flag::new`: stores the given fields verbatim, no validation. -/
def Flag.new (name : String) (args : List String) (desc : String)
    (notes : Option String) (value : Option AnyVal) : Flag :=
  { name := name, args := args, desc := desc, notes := notes, value := value }

/-- `Flag::get_name`. -/
def Flag.get_name (self : Flag) : String := self.name

/-- `Flag::get_args`. -/
def Flag.get_args (self : Flag) : List String := self.args

/-- `Flag::get_value`. -/
def Flag.get_value (self : Flag) : Option AnyVal := self.value

/-- `Flag::set_value`.  The Rust signature takes
`value: &'static dyn Any` and stores `Some(Box::new(value))`, i.e. a
box whose erased concrete type is `&'static dyn Any`; the model
therefore stores `AnyVal.refDynAny value`.  Mutation of `&mut self` is
modelled by returning the updated flag next to the `Result`. -/
def Flag.set_value (self : Flag) (value : AnyVal) :
    Flag × Except FlagError Unit :=
  if self.value.isNone then
    (self, Except.error FlagError.NoValue)
  else
    ({ self with value := some (AnyVal.refDynAny value) }, Except.ok ())

/-- `Flag::is_in`: `self.args.contains(&s)`. -/
def Flag.is_in (self : Flag) (s : String) : Bool :=
  self.args.contains s

/-- Spec-side rendering of the argument spellings: each entry followed
by a single space, including after the last one. -/
def argsRender : List String → String
  | [] => ""
  | arg :: rest => arg ++ " " ++ argsRender rest

/-- Spec-side notes clause: a pipe-separated notes field when present,
nothing otherwise. -/
def notesClause : Option String → String
  | some notes => " | " ++ notes
  | none => ""

/-- Spec-side default clause: the `match_value!` output when a value
is present, nothing otherwise. -/
def valueClause : Option AnyVal → String
  | some v => matchValue v
  | none => ""

/-- The rendering shape stated by the spec: name, newline, tab, each
argument followed by one space, `| ` and the description, then the
optional notes clause, then the optional default clause, in that
order. -/
def Flag.fmtShape (self : Flag) : String :=
  self.name ++ "\n\t" ++ argsRender self.args ++ "| " ++ self.desc
    ++ notesClause self.notes ++ valueClause self.value

/-- The natural textual form of an erased value of one of the four
supported (reference) types, `none` for every other concrete type:
`Display` of the referent for `&'static str`, `&'static bool`,
`&'static i32` and `&'static f32`. -/
def naturalForm : AnyVal → Option String
  | .refStr s => some s
  | .refBool b => some (displayBool b)
  | .refI32 n => some (toString n)
  | .refF32 d => some d
  | _ => none

/-- `pat` occurs as a contiguous substring of `s`. -/
def StrContains (s pat : String) : Prop :=
  ∃ pre post, s = pre ++ pat ++ post

/-- The descriptor of `test_flag_creation`: `Box::new(42)` erases the
by-value concrete type `i32`. -/
def flagTest : Flag :=
  { name := "test", args := ["-t", "--test"], desc := "A test flag",
    notes := some "Optional notes", value := some (AnyVal.valI32 42) }

/-- The descriptor of `test_flag_without_value`. -/
def flagHelp : Flag :=
  { name := "help", args := ["-h", "--help"],
    desc := "Display help information", notes := none, value := none }

/-- The descriptor of `test_flag_debug_format`: `Box::new("output.txt")`
erases the concrete type `&'static str`. -/
def flagOutput : Flag :=
  { name := "output", args := ["-o", "--output"],
    desc := "Specify the output file", notes := none,
    value := some (AnyVal.refStr "output.txt") }

/-- The descriptor of `test_flag_with_bool_value`: `Box::new(true)`
erases the by-value concrete type `bool`. -/
def flagVerbose : Flag :=
  { name := "verbose", args := ["-v", "--verbose"],
    desc := "Enable verbose output", notes := some "Useful for debugging",
    value := some (AnyVal.valBool true) }

/-- A descriptor with an empty argument list and no value. -/
def flagBare : Flag :=
  { name := "bare", args := [], desc := "No spellings", notes := none,
    value := none }

theorem foldl_args_eq (args : List String) (init : String) :
    args.foldl (fun acc arg => acc ++ arg ++ " ") init
      = init ++ argsRender args := by
  induction args generalizing init with
  | nil => simp [argsRender]
  | cons a rest ih =>
      rw [List.foldl_cons, ih]
      simp [argsRender, String.append_assoc]

theorem fmt_eq_fmtShape (f : Flag) : Flag.fmt f = Flag.fmtShape f := by
  cases f with
  | mk name args desc notes value =>
      simp only [Flag.fmt, Flag.fmtShape]
      rw [foldl_args_eq]
      cases notes <;> cases value <;>
        simp [notesClause, valueClause, String.append_assoc]

theorem strContains_mem (s pat : String) (h : StrContains s pat)
    (c : Char) (hc : c ∈ pat.data) : c ∈ s.data := by
  obtain ⟨pre, post, rfl⟩ := h
  simp [String.data_append]
  tauto

theorem strContains_default (x t : String) :
    StrContains (x ++ (" | Default: `" ++ t ++ "`"))
      ("Default: `" ++ t ++ "`") := by
  refine ⟨x ++ " | ", "", ?_⟩
  have hsplit : (" | Default: `" : String) = " | " ++ "Default: `" := rfl
  rw [hsplit]
  simp only [String.append_assoc, String.append_empty]

/-- C1 (amended): for every descriptor whose value slot holds a value
of one of the four supported reference types (`&'static str`,
`&'static bool`, `&'static i32`, `&'static f32`), the `match_value!`
chain produces the backticked natural textual form of the value, and
the `Debug` rendering contains `Default:` followed by that form in
backticks. -/
theorem c1_supported_default_rendering (f : Flag) (v : AnyVal) (t : String)
    (hv : f.value = some v) (ht : naturalForm v = some t) :
    matchValue v = " | Default: `" ++ t ++ "`" ∧
    StrContains (Flag.fmt f) ("Default: `" ++ t ++ "`") := by
  have hm : matchValue v = " | Default: `" ++ t ++ "`" := by
    cases v <;> simp [naturalForm] at ht <;>
      simp [matchValue, downcastStr, downcastBool, downcastI32, downcastF32, ht]
  refine ⟨hm, ?_⟩
  have hf : Flag.fmt f
      = (f.name ++ "\n\t" ++ argsRender f.args ++ "| " ++ f.desc
          ++ notesClause f.notes) ++ (" | Default: `" ++ t ++ "`") := by
    rw [fmt_eq_fmtShape]
    simp [Flag.fmtShape, hv, valueClause, hm, String.append_assoc]
  rw [hf]
  exact strContains_default _ _

/-- C1 counterexample: the descriptor of `test_flag_with_bool_value`
holds `Box::new(true)`, whose erased concrete type is the by-value
type `bool` (a member of the supported set as the claim words it),
yet the rendering does not contain the backticked form of the value:
the downcast chain only accepts `&'static bool`, so the rendering
falls through to the unknown-type clause. -/
theorem c1_counterexample :
    flagVerbose.value = some (AnyVal.valBool true) ∧
    ¬ StrContains (Flag.fmt flagVerbose) "Default: `true`" := by
  refine ⟨rfl, ?_⟩
  intro h
  have hc := strContains_mem _ _ h (Char.ofNat 96) (by decide)
  revert hc
  decide

/-- C1 witness: the descriptor of `test_flag_debug_format`, whose
value is the `&'static str` payload `"output.txt"`. -/
theorem c1_witness :
    matchValue (AnyVal.refStr "output.txt")
      = " | Default: `" ++ "output.txt" ++ "`" ∧
    StrContains (Flag.fmt flagOutput) ("Default: `" ++ "output.txt" ++ "`") :=
  c1_supported_default_rendering flagOutput (AnyVal.refStr "output.txt")
    "output.txt" rfl rfl

/-- C2: `set_value` on a descriptor whose value slot is absent returns
the `NoValue` error and leaves the whole descriptor (in particular its
absent value slot) unmodified. -/
theorem c2_absent_set_value_fails (f : Flag) (v : AnyVal)
    (h : f.value = none) :
    f.set_value v = (f, Except.error FlagError.NoValue) := by
  simp [Flag.set_value, h]

/-- C2 witness: the valueless descriptor of `test_flag_without_value`. -/
theorem c2_witness :
    flagHelp.set_value (AnyVal.refI32 1)
      = (flagHelp, Except.error FlagError.NoValue) :=
  c2_absent_set_value_fails flagHelp (AnyVal.refI32 1) rfl

/-- C3: `set_value` on a descriptor whose value slot is present
succeeds whatever the types of the old and new values are, and the
slot afterwards holds the new value (boxed as the `&'static dyn Any`
reference it was passed as); presence is the only condition tested. -/
theorem c3_present_set_value_succeeds (f : Flag) (w v : AnyVal)
    (h : f.value = some w) :
    (f.set_value v).2 = Except.ok () ∧
    (f.set_value v).1 = { f with value := some (AnyVal.refDynAny v) } := by
  simp [Flag.set_value, h]

/-- C3 witness: replacing the `i32` value of the `test_flag_creation`
descriptor by a value of a different type (`&'static str`). -/
theorem c3_witness :
    (flagTest.set_value (AnyVal.refStr "x")).2 = Except.ok () ∧
    (flagTest.set_value (AnyVal.refStr "x")).1
      = { flagTest with value := some (AnyVal.refDynAny (AnyVal.refStr "x")) } :=
  c3_present_set_value_succeeds flagTest (AnyVal.valI32 42)
    (AnyVal.refStr "x") rfl

/-- C4: `is_in s` returns true exactly when `s` equals an element of
`args`, and always returns false when `args` is empty. -/
theorem c4_is_in_iff_mem (f : Flag) (s : String) :
    (f.is_in s = true ↔ s ∈ f.args) ∧ (f.args = [] → f.is_in s = false) := by
  constructor
  · simp [Flag.is_in]
  · intro h
    simp [Flag.is_in, h]

/-- C4 witness: a stored spelling is found and nothing is found in an
empty argument list. -/
theorem c4_witness :
    flagTest.is_in "-t" = true ∧ flagBare.is_in "-o" = false := by
  constructor
  · exact (c4_is_in_iff_mem flagTest "-t").1.mpr (by decide)
  · exact (c4_is_in_iff_mem flagBare "-o").2 rfl

/-- C5: the `Debug` rendering of a descriptor has exactly the shape
name, newline, tab, each argument followed by one space (also after
the last), `| ` and the description, then the optional ` | notes`
clause, then the optional default clause, in that order. -/
theorem c5_rendering_shape (f : Flag) : Flag.fmt f = Flag.fmtShape f :=
  fmt_eq_fmtShape f

/-- C6: when the value slot holds a value whose concrete type matches
none of the four downcast rules, rendering still succeeds (the model
function is total) and appends exactly ` | Default: [unknown type]`
to what the same descriptor would render without a value. -/
theorem c6_unknown_type_rendering (f : Flag) (v : AnyVal)
    (hv : f.value = some v)
    (h1 : downcastStr v = none) (h2 : downcastBool v = none)
    (h3 : downcastI32 v = none) (h4 : downcastF32 v = none) :
    Flag.fmt f
      = Flag.fmt { f with value := none } ++ " | Default: [unknown type]" := by
  have hm : matchValue v = " | Default: [unknown type]" := by
    simp [matchValue, h1, h2, h3, h4]
  rw [fmt_eq_fmtShape, fmt_eq_fmtShape]
  simp [Flag.fmtShape, valueClause, hv, hm, String.append_assoc]

/-- C6 witness: the `test_flag_with_bool_value` descriptor, whose
by-value `bool` payload matches no downcast rule. -/
theorem c6_witness :
    Flag.fmt flagVerbose
      = Flag.fmt { flagVerbose with value := none }
          ++ " | Default: [unknown type]" :=
  c6_unknown_type_rendering flagVerbose (AnyVal.valBool true)
    rfl rfl rfl rfl rfl

/-- C7: the `Debug` rendering of `FlagError` maps `NoValue` to
`No value provided`, `InvalidFlag` to `Invalid flag` and
`MissingArgument` to `Missing Argument`; and the `debug_match!` chain
renders `Unknown value` whenever no rule matches, instead of
failing. -/
theorem c7_flag_error_labels :
    FlagError.fmt FlagError.NoValue = "No value provided" ∧
    FlagError.fmt FlagError.InvalidFlag = "Invalid flag" ∧
    FlagError.fmt FlagError.MissingArgument = "Missing Argument" ∧
    ∀ rules : List (Bool × String), (∀ r ∈ rules, r.1 = false) →
      debugMatch rules = "Unknown value" := by
  refine ⟨rfl, rfl, rfl, ?_⟩
  intro rules h
  have hf : rules.find? (fun r => r.1) = none := by
    rw [List.find?_eq_none]
    intro x hx
    simp [h x hx]
  simp [debugMatch, hf]

/-- C7 witness: a rule list none of whose tests succeeds renders the
fallback label. -/
theorem c7_witness : debugMatch [(false, "unused")] = "Unknown value" :=
  c7_flag_error_labels.2.2.2 [(false, "unused")] (by decide)

/-- C8: rendering is deterministic; two descriptors with equal
fields render to the same string. -/
theorem c8_deterministic (f g : Flag) (h1 : f.name = g.name)
    (h2 : f.args = g.args) (h3 : f.desc = g.desc) (h4 : f.notes = g.notes)
    (h5 : f.value = g.value) : Flag.fmt f = Flag.fmt g := by
  cases f
  cases g
  simp_all

/-- C8 witness: applied to two (syntactically) equal descriptors. -/
theorem c8_witness : Flag.fmt flagOutput = Flag.fmt flagOutput :=
  c8_deterministic flagOutput flagOutput rfl rfl rfl rfl rfl

/-- C9: `set_value`, succeeding or failing, never changes the name,
args, desc or notes fields; the value slot is the only field it can
modify. -/
theorem c9_set_value_frame (f : Flag) (v : AnyVal) :
    (f.set_value v).1.name = f.name ∧ (f.set_value v).1.args = f.args ∧
    (f.set_value v).1.desc = f.desc ∧ (f.set_value v).1.notes = f.notes := by
  cases hv : f.value <;> simp [Flag.set_value, hv]

/-- C10: after a successful `set_value` the stored concrete type is
`&'static dyn Any`, which matches none of the four downcast rules, so
every subsequent rendering shows the unknown-type default clause,
whatever value the caller passed. -/
theorem c10_set_value_then_unknown (f : Flag) (w v : AnyVal)
    (h : f.value = some w) :
    (f.set_value v).2 = Except.ok () ∧
    Flag.fmt (f.set_value v).1
      = Flag.fmt { f with value := none } ++ " | Default: [unknown type]" := by
  have hset : (f.set_value v).1
      = { f with value := some (AnyVal.refDynAny v) } := by
    simp [Flag.set_value, h]
  refine ⟨by simp [Flag.set_value, h], ?_⟩
  rw [hset, fmt_eq_fmtShape, fmt_eq_fmtShape]
  simp [Flag.fmtShape, valueClause, matchValue, downcastStr, downcastBool,
    downcastI32, downcastF32, String.append_assoc]

/-- C10 witness: storing a `&'static bool` referent through
`set_value` still renders as unknown type, because the box holds a
`&'static dyn Any`. -/
theorem c10_witness :
    (flagTest.set_value (AnyVal.refBool true)).2 = Except.ok () ∧
    Flag.fmt (flagTest.set_value (AnyVal.refBool true)).1
      = Flag.fmt { flagTest with value := none }
          ++ " | Default: [unknown type]" :=
  c10_set_value_then_unknown flagTest (AnyVal.valI32 42)
    (AnyVal.refBool true) rfl

end DynaFlag
